import Mathlib

/-!
A shallow embedding of the droplet-catching game in src/main.py.

Modelling conventions:
* Canvas coordinates, sizes and speeds are rationals (ℚ); scores and point
  values are integers (ℤ).  The Python code manipulates these values with
  exact integer-valued literals in all the places the claims touch, so the
  rational model tracks the source faithfully (float rounding never enters
  the statements proved here; the difficulty factor 1.01 is the exact
  rational 101/100).
* A sprite's `coords` field mirrors `SpriteBase.coords`, the top-left corner
  that `Coords.from_canvas` reads back after every step (for the cup the
  rectangle is created upward from its anchor, so `coords.y` stays the
  bottom anchor).
* `random.randint(lo, hi)` and `random.random()` are modelled by oracle
  parameters: a draw function receives the exact bounds the code passes, so
  which bounds are requested is part of the embedded behaviour, while the
  drawn value is arbitrary.
* `tkinter` rendering calls (`canvas.move`, label placement, `delete`) are
  state on the sprites themselves; `view.after(timeout, droplet.delete)` —
  the one-tick deferred deletion — is modelled by returning the list of
  sprites scheduled for deletion.
-/

/-- MoveDirection from src/main.py: LEFT = -1, NONE = 0, RIGHT = 1. -/
inductive MoveDirection where
  | LEFT
  | NONE
  | RIGHT

deriving instance DecidableEq, Repr for MoveDirection

/-- The integer value carried by the Python enum member. -/
def MoveDirection.value : MoveDirection → ℤ
  | .LEFT => -1
  | .NONE => 0
  | .RIGHT => 1

/-- Coords dataclass: an (x, y) canvas position. -/
structure Coords where
  x : ℚ
  y : ℚ

deriving instance DecidableEq, Repr for Coords

/-- DropletSprite: state of one falling droplet (`coords` is the top-left
corner of the oval created from (x, y) to (x + size, y + size)). -/
structure DropletSprite where
  coords : Coords
  size : ℚ
  color : String
  speed : ℚ
  points : ℤ

deriving instance DecidableEq, Repr for DropletSprite

/-- DropletSprite.step = _do_step (canvas.move by (0, speed)) followed by the
coords re-sync from the canvas: the net effect is y += speed, x unchanged. -/
def DropletSprite.step (d : DropletSprite) : DropletSprite :=
  { d with coords := { d.coords with y := d.coords.y + d.speed } }

/-- CupSprite: state of the player's cup.  `coords` is the anchor passed to
the constructor (bottom-left: the rectangle is created from (x, y) to
(x + width, y - height)), re-synced unchanged in shape after each move. -/
structure CupSprite where
  coords : Coords
  width : ℚ
  height : ℚ
  color : String
  speed : ℚ
  direction : MoveDirection

deriving instance DecidableEq, Repr for CupSprite

/-- CupSprite._do_step (plus the coords re-sync of SpriteBase.step): move
left by speed when direction is LEFT and x > 0, right by speed when
direction is RIGHT and x + width < the canvas width, else stay. -/
def CupSprite.doStep (winWidth : ℚ) (c : CupSprite) : CupSprite :=
  if c.direction = MoveDirection.LEFT ∧ c.coords.x > 0 then
    { c with coords := { c.coords with x := c.coords.x - c.speed } }
  else if c.direction = MoveDirection.RIGHT ∧ c.coords.x + c.width < winWidth then
    { c with coords := { c.coords with x := c.coords.x + c.speed } }
  else
    c

/-- CupSprite.set_move_direction. -/
def CupSprite.setMoveDirection (c : CupSprite) (d : MoveDirection) : CupSprite :=
  { c with direction := d }

/-- WaterDropGameModel: the mutable game model. -/
structure WaterDropGameModel where
  width : ℚ
  height : ℚ
  score : ℤ
  high_score : ℤ
  cup_width : ℚ
  cup_speed : ℚ
  game_over : Bool
  droplet_speed : ℚ
  droplet_acceleration : ℚ

deriving instance DecidableEq, Repr for WaterDropGameModel

/-- WaterDropGameModel.__init__(width, height). -/
def WaterDropGameModel.init (width height : ℚ) : WaterDropGameModel :=
  { width := width
    height := height
    score := 0
    high_score := 0
    cup_width := 100
    cup_speed := 10
    game_over := false
    droplet_speed := 5
    droplet_acceleration := 101 / 100 }

/-- WaterDropGameModel.update_score: score += points; if score > high_score
then high_score = score. -/
def WaterDropGameModel.updateScore (m : WaterDropGameModel) (points : ℤ) :
    WaterDropGameModel :=
  let m1 := { m with score := m.score + points }
  if m1.score > m1.high_score then { m1 with high_score := m1.score } else m1

/-- WaterDropGameModel.reset: score = 0, game_over = False, droplet_speed = 5. -/
def WaterDropGameModel.reset (m : WaterDropGameModel) : WaterDropGameModel :=
  { m with score := 0, game_over := false, droplet_speed := 5 }

/-- WaterDropGameModel.increase_difficulty: droplet_speed *= droplet_acceleration. -/
def WaterDropGameModel.increaseDifficulty (m : WaterDropGameModel) :
    WaterDropGameModel :=
  { m with droplet_speed := m.droplet_speed * m.droplet_acceleration }

/-- The combined controller/view state the periodic callbacks act on: the
model plus the view's live-entity lists and the cup sprite. -/
structure GameState where
  model : WaterDropGameModel
  droplets : List DropletSprite
  danger_drops : List DropletSprite
  cup : CupSprite

deriving instance DecidableEq, Repr for GameState

/-- WaterDropGameView._init_cup: cup anchored at
(width / 2 - cup_width / 2, height), width cup_width, height 20, blue,
speed cup_speed. -/
def initCup (m : WaterDropGameModel) : CupSprite :=
  { coords := ⟨m.width / 2 - m.cup_width / 2, m.height⟩
    width := m.cup_width
    height := 20
    color := "blue"
    speed := m.cup_speed
    direction := MoveDirection.NONE }

/-- The state right after WaterDropGameController.__init__(width, height):
fresh model, empty entity lists, cup installed by _init_cup. -/
def initGameState (width height : ℚ) : GameState :=
  { model := WaterDropGameModel.init width height
    droplets := []
    danger_drops := []
    cup := initCup (WaterDropGameModel.init width height) }

/-- Local variable droplet_bottom of did_droplet_hit_cup:
droplet.coords.y + droplet.size / 2. -/
def dropletBottom (droplet : DropletSprite) : ℚ :=
  droplet.coords.y + droplet.size / 2

/-- Local variable droplet_left of did_droplet_hit_cup. -/
def dropletLeft (droplet : DropletSprite) : ℚ :=
  droplet.coords.x

/-- Local variable droplet_right of did_droplet_hit_cup. -/
def dropletRight (droplet : DropletSprite) : ℚ :=
  droplet.coords.x + droplet.size

/-- Local variable cup_top of did_droplet_hit_cup:
cup.coords.y - cup.height (the anchor is the cup's bottom edge). -/
def cupTop (cup : CupSprite) : ℚ :=
  cup.coords.y - cup.height

/-- Local variable cup_left of did_droplet_hit_cup. -/
def cupLeft (cup : CupSprite) : ℚ :=
  cup.coords.x

/-- Local variable cup_right of did_droplet_hit_cup. -/
def cupRight (cup : CupSprite) : ℚ :=
  cup.coords.x + cup.width

/-- WaterDropGameController.did_droplet_hit_cup, with self.view.cup passed
explicitly.  Returns droplet_bottom > cup_top and droplet_left < cup_right
and droplet_right > cup_left. -/
def didDropletHitCup (cup : CupSprite) (droplet : DropletSprite) : Bool :=
  decide (dropletBottom droplet > cupTop cup) &&
    decide (dropletLeft droplet < cupRight cup) &&
    decide (dropletRight droplet > cupLeft cup)

/-- WaterDropGameView.create_danger_droplet(x, y, size, color, speed):
appends a DropletSprite with points -100 to danger_drops. -/
def createDangerDroplet (x y size : ℚ) (color : String) (speed : ℚ)
    (s : GameState) : GameState :=
  { s with danger_drops :=
      s.danger_drops ++
        [{ coords := ⟨x, y⟩, size := size, color := color, speed := speed,
           points := -100 }] }

/-- WaterDropGameView.create_droplet(x, y, size, color, speed, points):
appends a DropletSprite to droplets. -/
def createDroplet (x y size : ℚ) (color : String) (speed : ℚ) (points : ℤ)
    (s : GameState) : GameState :=
  { s with droplets :=
      s.droplets ++
        [{ coords := ⟨x, y⟩, size := size, color := color, speed := speed,
           points := points }] }

/-- WaterDropGameController.spawn_danger_drop.  The random draw is an oracle
receiving the bounds the code passes to random.randint — the literal pair
(50, 750). -/
def spawnDangerDrop (rand : ℚ × ℚ → ℚ) (s : GameState) : GameState :=
  if s.model.game_over then s
  else
    let x := rand (50, 750)
    createDangerDroplet x 0 30 "red" (s.model.droplet_speed * 2) s

/-- WaterDropGameController.spawn_droplet.  `rand` is the randint oracle
(receiving the bounds (50, width - 50) the code passes), `r` the
random.random() draw compared against 0.05.  Returns the new state and
whether the callback rescheduled itself. -/
def spawnDroplet (rand : ℚ × ℚ → ℚ) (r : ℚ) (s : GameState) :
    GameState × Bool :=
  if s.model.game_over then (s, false)
  else
    let m1 := s.model.increaseDifficulty
    let x := rand (50, s.model.width - 50)
    if r < 5 / 100 then
      (createDroplet x 0 20 "gold" (m1.droplet_speed * (3 / 2)) 50
        { s with model := m1 }, true)
    else
      (createDroplet x 0 10 "blue" m1.droplet_speed 10
        { s with model := m1 }, true)

/-- WaterDropGameController.end_game: sets model.game_over (the label and
button placements are pure rendering). -/
def endGame (s : GameState) : GameState :=
  { s with model := { s.model with game_over := true } }

/-- Result of one collectible-droplet loop of move_droplets: the threaded
state (model updates and danger spawns happen in place), the next randint
call index, the local next_droplets list, and the sprites handed to
view.after(timeout, droplet.delete) — the one-tick deferred deletions. -/
structure CollectResult where
  state : GameState
  randIdx : ℕ
  nextDroplets : List DropletSprite
  pendingDeletes : List DropletSprite

deriving instance Repr for CollectResult

/-- The `for droplet in self.view.droplets` loop of move_droplets: step each
droplet; if coords.y >= height, schedule a deferred delete and call
spawn_danger_drop; elif it hit the cup, schedule a deferred delete and
update the score; else keep it in next_droplets.  `rand` supplies the
successive randint draws. -/
def collectLoop (rand : ℕ → ℚ × ℚ → ℚ) :
    GameState → ℕ → List DropletSprite → CollectResult
  | s, i, [] => ⟨s, i, [], []⟩
  | s, i, d :: rest =>
    let d1 := d.step
    if d1.coords.y ≥ s.model.height then
      let s1 := spawnDangerDrop (rand i) s
      let res := collectLoop rand s1 (i + 1) rest
      ⟨res.state, res.randIdx, res.nextDroplets, d1 :: res.pendingDeletes⟩
    else if didDropletHitCup s.cup d1 then
      let s1 := { s with model := s.model.updateScore d1.points }
      let res := collectLoop rand s1 i rest
      ⟨res.state, res.randIdx, res.nextDroplets, d1 :: res.pendingDeletes⟩
    else
      let res := collectLoop rand s i rest
      ⟨res.state, res.randIdx, d1 :: res.nextDroplets, res.pendingDeletes⟩

/-- The `for danger_drop in self.view.danger_drops` loop of move_droplets:
step each danger droplet; if coords.y >= height, delete it immediately; elif
it hit the cup, call end_game (the sprite is dropped from the list either
way); else keep it.  Returns the threaded state and next_danger_droplets. -/
def dangerLoop : GameState → List DropletSprite → GameState × List DropletSprite
  | s, [] => (s, [])
  | s, d :: rest =>
    let d1 := d.step
    if d1.coords.y ≥ s.model.height then
      dangerLoop s rest
    else if didDropletHitCup s.cup d1 then
      dangerLoop (endGame s) rest
    else
      let res := dangerLoop s rest
      (res.1, d1 :: res.2)

/-- Result of one move_droplets invocation: the new state, the sprites with
a deferred (one-tick-delayed) delete scheduled, and whether the callback
rescheduled itself. -/
structure MoveResult where
  state : GameState
  pendingDeletes : List DropletSprite
  rescheduled : Bool

deriving instance DecidableEq, Repr for MoveResult

/-- WaterDropGameController.move_droplets: guarded on game_over; runs the
collectible loop (which appends to danger_drops via spawn_danger_drop as it
goes), installs next_droplets, then runs the danger loop over the danger
list as it stands after those appends, and reschedules itself. -/
def moveDroplets (rand : ℕ → ℚ × ℚ → ℚ) (s : GameState) : MoveResult :=
  if s.model.game_over then ⟨s, [], false⟩
  else
    let res := collectLoop rand s 0 s.droplets
    let s2 := { res.state with droplets := res.nextDroplets }
    let dres := dangerLoop s2 s2.danger_drops
    ⟨{ dres.1 with danger_drops := dres.2 }, res.pendingDeletes, true⟩

/-- WaterDropGameController.handle_keyboard: guarded on game_over; sets the
cup direction from the held Left/Right keys (exactly one held moves, neither
or both gives NONE), steps the cup once against the canvas width, and
reschedules itself. -/
def handleKeyboard (left_down right_down : Bool) (s : GameState) :
    GameState × Bool :=
  if s.model.game_over then (s, false)
  else
    let dir :=
      if Bool.xor left_down right_down then
        if left_down then MoveDirection.LEFT else MoveDirection.RIGHT
      else MoveDirection.NONE
    let cup1 := (s.cup.setMoveDirection dir).doStep s.model.width
    ({ s with cup := cup1 }, true)

/-- One invocation of any of the three periodic callbacks, with its random
draws / key states packaged as the event. -/
inductive GameEvent where
  | spawnTick (rand : ℚ × ℚ → ℚ) (r : ℚ)
  | moveTick (rand : ℕ → ℚ × ℚ → ℚ)
  | keyTick (left_down right_down : Bool)

/-- The state transition of one callback invocation (discarding the
reschedule flag and pending deletions). -/
def applyEvent (s : GameState) (e : GameEvent) : GameState :=
  match e with
  | .spawnTick rand r => (spawnDroplet rand r s).1
  | .moveTick rand => (moveDroplets rand s).state
  | .keyTick l r => (handleKeyboard l r s).1

/-- One handle_keyboard tick as seen by the cup with the game running at the
default 800-wide window: set the direction, then step. -/
def cupStepWithDirection (c : CupSprite) (d : MoveDirection) : CupSprite :=
  (c.setMoveDirection d).doStep 800

/-- Cup x-position after a sequence of handle_keyboard ticks from the cup
installed by _init_cup in the 800 x 600 game started in __main__. -/
def cupXAfter (ds : List MoveDirection) : ℚ :=
  (ds.foldl cupStepWithDirection (initCup (WaterDropGameModel.init 800 600))).coords.x

/-- The concrete cup of the collision test: x spanning [100, 200], bottom
anchor y = 600, height 20, so cup_top = 580. -/
def cupC1 : CupSprite :=
  { coords := ⟨100, 600⟩, width := 100, height := 20, color := "blue",
    speed := 10, direction := MoveDirection.NONE }

/-- The droplet of the collision test with bottom edge 585, left 150,
right 160 (size 10, so coords.y = 580). -/
def dropC1a : DropletSprite :=
  { coords := ⟨150, 580⟩, size := 10, color := "blue", speed := 5, points := 10 }

/-- The droplet of the collision test with right edge 90 (left of the cup). -/
def dropC1b : DropletSprite :=
  { coords := ⟨80, 580⟩, size := 10, color := "blue", speed := 5, points := 10 }

/-- A randint oracle returning the lower bound of the requested range. -/
def lowerRand : ℚ × ℚ → ℚ := fun p => p.1

/-- A randint oracle returning the upper bound of the requested range. -/
def upperRand : ℚ × ℚ → ℚ := fun p => p.2

/-- An indexed randint oracle (the draws of one move_droplets tick),
returning the lower bound of each requested range. -/
def lowerRandSeq : ℕ → ℚ × ℚ → ℚ := fun _ p => p.1

/-- A collectible droplet at (700, 540) falling 55 per tick: after one step
its top edge is 595 (above the 600 floor) while its bottom edge is 605
(below the floor), and it is far to the right of the cup. -/
def dropC2 : DropletSprite :=
  { coords := ⟨700, 540⟩, size := 10, color := "blue", speed := 55, points := 10 }

/-- The fresh 800 x 600 game with the single droplet dropC2 alive. -/
def stateC2 : GameState :=
  { initGameState 800 600 with droplets := [dropC2] }

/-- Invariant of every cup reachable by handle_keyboard ticks in the 800-wide
game: the geometry installed by _init_cup (width 100, speed 10) and an
x-position that is a whole multiple of the 10-pixel step inside [0, 700]. -/
def CupInv (c : CupSprite) : Prop :=
  c.width = 100 ∧ c.speed = 10 ∧
    ∃ k : ℤ, c.coords.x = 10 * (k : ℚ) ∧ 0 ≤ k ∧ k ≤ 70

/-- Claim C1: the cup-collision predicate returns true exactly when the
droplet's bottom edge exceeds the cup's top edge (cup anchor y minus cup
height), the droplet's left edge is left of the cup's right edge, and the
droplet's right edge is right of the cup's left edge; at the concrete cup
spanning x in [100, 200] with top edge 580 it accepts the droplet with
bottom 585, left 150, right 160 and rejects the droplet with right edge 90. -/
theorem claim_C1_collision_predicate :
    (∀ (cup : CupSprite) (droplet : DropletSprite),
      didDropletHitCup cup droplet = true ↔
        (dropletBottom droplet > cupTop cup ∧
          dropletLeft droplet < cupRight cup ∧
          dropletRight droplet > cupLeft cup)) ∧
    cupTop cupC1 = cupC1.coords.y - cupC1.height ∧
    cupTop cupC1 = 580 ∧
    didDropletHitCup cupC1 dropC1a = true ∧
    didDropletHitCup cupC1 dropC1b = false := by
  refine ⟨fun cup droplet => ?_, rfl, ?_, ?_, ?_⟩
  · simp [didDropletHitCup, and_assoc]
  · norm_num [cupTop, cupC1]
  · norm_num [didDropletHitCup, dropletBottom, dropletLeft, dropletRight,
      cupTop, cupLeft, cupRight, cupC1, dropC1a]
  · norm_num [didDropletHitCup, dropletBottom, dropletLeft, dropletRight,
      cupTop, cupLeft, cupRight, cupC1, dropC1b]

/-- Claim C8: reset always yields score 0, game_over false, droplet fall
speed back at its initial value 5, and leaves high_score unchanged,
regardless of the prior model state. -/
theorem claim_C8_reset (m : WaterDropGameModel) :
    m.reset.score = 0 ∧
    m.reset.game_over = false ∧
    m.reset.droplet_speed = 5 ∧
    m.reset.high_score = m.high_score :=
  ⟨rfl, rfl, rfl, rfl⟩

/-! Helper lemmas about update_score. -/

theorem updateScore_score_eq (m : WaterDropGameModel) (points : ℤ) :
    (m.updateScore points).score = m.score + points := by
  simp only [WaterDropGameModel.updateScore]
  split <;> rfl

theorem updateScore_high_le (m : WaterDropGameModel) (points : ℤ) :
    m.high_score ≤ (m.updateScore points).high_score := by
  simp only [WaterDropGameModel.updateScore]
  split_ifs with h
  · simp at h ⊢
    omega
  · simp

theorem updateScore_score_le_high (m : WaterDropGameModel) (points : ℤ) :
    (m.updateScore points).score ≤ (m.updateScore points).high_score := by
  simp only [WaterDropGameModel.updateScore]
  split_ifs with h
  · simp
  · simp at h ⊢
    omega

theorem foldl_updateScore_high_le (l : List ℤ) :
    ∀ m : WaterDropGameModel,
      m.high_score ≤ (l.foldl WaterDropGameModel.updateScore m).high_score := by
  induction l with
  | nil => intro m; exact le_refl _
  | cons p rest ih =>
    intro m
    exact le_trans (updateScore_high_le m p) (ih (m.updateScore p))

/-- Claim C4: update_score adds the points to the score, never decreases the
high score, and leaves high_score at least score after every call; over any
sequence of calls the high score is non-decreasing. -/
theorem claim_C4_score_invariants (m : WaterDropGameModel) (points : ℤ)
    (l : List ℤ) :
    (m.updateScore points).score = m.score + points ∧
    m.high_score ≤ (m.updateScore points).high_score ∧
    (m.updateScore points).score ≤ (m.updateScore points).high_score ∧
    m.high_score ≤ (l.foldl WaterDropGameModel.updateScore m).high_score :=
  ⟨updateScore_score_eq m points, updateScore_high_le m points,
    updateScore_score_le_high m points, foldl_updateScore_high_le l m⟩

/-! Helper lemmas about increase_difficulty. -/

theorem iterate_increase_accel (n : ℕ) (m : WaterDropGameModel) :
    (WaterDropGameModel.increaseDifficulty^[n] m).droplet_acceleration =
      m.droplet_acceleration := by
  induction n with
  | zero => rfl
  | succ k ih =>
    rw [Function.iterate_succ_apply']
    simpa [WaterDropGameModel.increaseDifficulty] using ih

theorem iterate_increase_speed (n : ℕ) (m : WaterDropGameModel) :
    (WaterDropGameModel.increaseDifficulty^[n] m).droplet_speed =
      m.droplet_speed * m.droplet_acceleration ^ n := by
  induction n with
  | zero => simp
  | succ k ih =>
    rw [Function.iterate_succ_apply']
    simp only [WaterDropGameModel.increaseDifficulty, ih, iterate_increase_accel]
    ring

/-- Claim C9: applying increase_difficulty n times from fall speed s0 with
the game's acceleration factor 1.01 yields exactly s0 * (101/100) ^ n
(the rational model is exact, hence within any floating-point tolerance),
and each application leaves the fall speed non-decreasing. -/
theorem claim_C9_difficulty_geometric (m : WaterDropGameModel) (n k : ℕ)
    (h1 : m.droplet_acceleration = 101 / 100) (h2 : 0 ≤ m.droplet_speed) :
    (WaterDropGameModel.increaseDifficulty^[n] m).droplet_speed =
      m.droplet_speed * (101 / 100) ^ n ∧
    (WaterDropGameModel.increaseDifficulty^[k] m).droplet_speed ≤
      (WaterDropGameModel.increaseDifficulty^[k + 1] m).droplet_speed := by
  constructor
  · rw [iterate_increase_speed, h1]
  · rw [iterate_increase_speed, iterate_increase_speed, h1, pow_succ,
      ← mul_assoc]
    have hbase : (0 : ℚ) ≤ m.droplet_speed * (101 / 100) ^ k :=
      mul_nonneg h2 (pow_nonneg (by norm_num) k)
    exact le_mul_of_one_le_right hbase (by norm_num)

/-- Witness for claim C9 at the freshly initialised model. -/
theorem claim_C9_witness :
    (WaterDropGameModel.init 800 600).droplet_acceleration = 101 / 100 ∧
    (0 : ℚ) ≤ (WaterDropGameModel.init 800 600).droplet_speed ∧
    ((WaterDropGameModel.increaseDifficulty^[2]
        (WaterDropGameModel.init 800 600)).droplet_speed =
      (WaterDropGameModel.init 800 600).droplet_speed * (101 / 100) ^ 2 ∧
    (WaterDropGameModel.increaseDifficulty^[0]
        (WaterDropGameModel.init 800 600)).droplet_speed ≤
      (WaterDropGameModel.increaseDifficulty^[0 + 1]
        (WaterDropGameModel.init 800 600)).droplet_speed) :=
  ⟨rfl, by norm_num [WaterDropGameModel.init],
    claim_C9_difficulty_geometric (WaterDropGameModel.init 800 600) 2 0 rfl
      (by norm_num [WaterDropGameModel.init])⟩

/-! Helper lemmas: every periodic callback is a non-rescheduling no-op once
game_over holds. -/

theorem spawnDroplet_of_game_over (rand : ℚ × ℚ → ℚ) (r : ℚ) (s : GameState)
    (h : s.model.game_over = true) : spawnDroplet rand r s = (s, false) := by
  simp [spawnDroplet, h]

theorem moveDroplets_of_game_over (rand : ℕ → ℚ × ℚ → ℚ) (s : GameState)
    (h : s.model.game_over = true) : moveDroplets rand s = ⟨s, [], false⟩ := by
  simp [moveDroplets, h]

theorem handleKeyboard_of_game_over (ld rd : Bool) (s : GameState)
    (h : s.model.game_over = true) : handleKeyboard ld rd s = (s, false) := by
  simp [handleKeyboard, h]

theorem applyEvent_of_game_over (e : GameEvent) (s : GameState)
    (h : s.model.game_over = true) : applyEvent s e = s := by
  cases e with
  | spawnTick rand r => simp [applyEvent, spawnDroplet_of_game_over rand r s h]
  | moveTick rand => simp [applyEvent, moveDroplets_of_game_over rand s h]
  | keyTick l r => simp [applyEvent, handleKeyboard_of_game_over l r s h]

theorem foldl_applyEvent_of_game_over (es : List GameEvent) :
    ∀ s : GameState, s.model.game_over = true →
      es.foldl applyEvent s = s := by
  induction es with
  | nil => intro s _; rfl
  | cons e rest ih =>
    intro s h
    rw [List.foldl_cons, applyEvent_of_game_over e s h]
    exact ih s h

/-- Claim C5: once game_over is true, each of the three periodic callbacks
leaves the state untouched and does not reschedule itself, and any sequence
of further callback invocations (with any random draws and key states)
leaves the state untouched: no spawning, droplet movement, scoring, or cup
movement is processed until a restart resets game_over.  In particular the
false-to-true flip can happen at most once per session, since it is never
undone by the callbacks. -/
theorem claim_C5_game_over_terminal (s : GameState) (rand1 : ℚ × ℚ → ℚ)
    (r : ℚ) (rand2 : ℕ → ℚ × ℚ → ℚ) (ld rd : Bool) (es : List GameEvent)
    (h : s.model.game_over = true) :
    spawnDroplet rand1 r s = (s, false) ∧
    moveDroplets rand2 s = ⟨s, [], false⟩ ∧
    handleKeyboard ld rd s = (s, false) ∧
    es.foldl applyEvent s = s :=
  ⟨spawnDroplet_of_game_over rand1 r s h, moveDroplets_of_game_over rand2 s h,
    handleKeyboard_of_game_over ld rd s h, foldl_applyEvent_of_game_over es s h⟩

/-- Witness for claim C5 at the fresh 800 x 600 game after end_game. -/
theorem claim_C5_witness :
    (endGame (initGameState 800 600)).model.game_over = true ∧
    (spawnDroplet lowerRand 0 (endGame (initGameState 800 600)) =
        (endGame (initGameState 800 600), false) ∧
      moveDroplets lowerRandSeq (endGame (initGameState 800 600)) =
        ⟨endGame (initGameState 800 600), [], false⟩ ∧
      handleKeyboard true false (endGame (initGameState 800 600)) =
        (endGame (initGameState 800 600), false) ∧
      [GameEvent.keyTick true false].foldl applyEvent
          (endGame (initGameState 800 600)) =
        endGame (initGameState 800 600)) :=
  ⟨rfl, claim_C5_game_over_terminal (endGame (initGameState 800 600)) lowerRand
    0 lowerRandSeq true false [GameEvent.keyTick true false] rfl⟩

/-- Claim C6: on a spawn tick of an active game, spawn_droplet applies
increase_difficulty exactly once (and changes nothing else in the model),
draws x from the randint range (50, width - 50), spawns one droplet at
y = 0 — with the rare branch (r < 0.05) of size 20, points 50 and speed the
current (post-increase) fall speed times 1.5, otherwise size 10, points 10
and speed the current fall speed — and reschedules itself. -/
theorem claim_C6_spawn_policy (s : GameState) (rand : ℚ × ℚ → ℚ) (r : ℚ)
    (h : s.model.game_over = false) :
    (spawnDroplet rand r s).2 = true ∧
    (spawnDroplet rand r s).1.model =
      { s.model with
          droplet_speed := s.model.droplet_speed * s.model.droplet_acceleration } ∧
    (spawnDroplet rand r s).1.danger_drops = s.danger_drops ∧
    (spawnDroplet rand r s).1.cup = s.cup ∧
    (spawnDroplet rand r s).1.droplets =
      s.droplets ++
        [if r < 5 / 100 then
            { coords := ⟨rand (50, s.model.width - 50), 0⟩, size := 20,
              color := "gold",
              speed := s.model.droplet_speed * s.model.droplet_acceleration * (3 / 2),
              points := 50 }
          else
            { coords := ⟨rand (50, s.model.width - 50), 0⟩, size := 10,
              color := "blue",
              speed := s.model.droplet_speed * s.model.droplet_acceleration,
              points := 10 }] := by
  simp only [spawnDroplet, h, Bool.false_eq_true, if_false]
  split_ifs with hr <;>
    simp [createDroplet, WaterDropGameModel.increaseDifficulty, hr, h]

/-- Witness for claim C6 at the fresh 800 x 600 game with a rare draw. -/
theorem claim_C6_witness :
    (initGameState 800 600).model.game_over = false ∧
    ((spawnDroplet upperRand 0 (initGameState 800 600)).2 = true ∧
      (spawnDroplet upperRand 0 (initGameState 800 600)).1.model =
        { (initGameState 800 600).model with
            droplet_speed :=
              (initGameState 800 600).model.droplet_speed *
                (initGameState 800 600).model.droplet_acceleration } ∧
      (spawnDroplet upperRand 0 (initGameState 800 600)).1.danger_drops =
        (initGameState 800 600).danger_drops ∧
      (spawnDroplet upperRand 0 (initGameState 800 600)).1.cup =
        (initGameState 800 600).cup ∧
      (spawnDroplet upperRand 0 (initGameState 800 600)).1.droplets =
        (initGameState 800 600).droplets ++
          [if (0 : ℚ) < 5 / 100 then
              { coords := ⟨upperRand (50, (initGameState 800 600).model.width - 50), 0⟩,
                size := 20, color := "gold",
                speed :=
                  (initGameState 800 600).model.droplet_speed *
                    (initGameState 800 600).model.droplet_acceleration * (3 / 2),
                points := 50 }
            else
              { coords := ⟨upperRand (50, (initGameState 800 600).model.width - 50), 0⟩,
                size := 10, color := "blue",
                speed :=
                  (initGameState 800 600).model.droplet_speed *
                    (initGameState 800 600).model.droplet_acceleration,
                points := 10 }]) :=
  ⟨rfl, claim_C6_spawn_policy (initGameState 800 600) upperRand 0 rfl⟩

/-- Counterexample for claim C7: even with the randint oracle returning the
upper bound of the requested range, the danger droplet spawned in a game
configured with window width 1000 sits at x = 750, not at
width - 50 = 950 — the upper bound of the range is the literal 750, not a
function of the window width. -/
theorem claim_C7_counterexample :
    ((spawnDangerDrop upperRand (initGameState 1000 600)).danger_drops.map
        (fun d => d.coords.x)) = [750] ∧
    (750 : ℚ) ≠ 1000 - 50 := by
  constructor
  · simp [spawnDangerDrop, createDangerDroplet, initGameState, upperRand,
      WaterDropGameModel.init]
  · norm_num

/-- Claim C7 (amended): every danger droplet is spawned at y = 0 with size
30, color red, speed twice the current fall speed, points -100, and an x
drawn from the fixed randint range (50, 750) — this range is a hard-coded
constant, independent of the configured window width, and coincides with
[50, width - 50] only for the default width 800. -/
theorem claim_C7_danger_spawn (s : GameState) (rand : ℚ × ℚ → ℚ)
    (h : s.model.game_over = false) :
    spawnDangerDrop rand s =
      { s with danger_drops :=
          s.danger_drops ++
            [{ coords := ⟨rand (50, 750), 0⟩, size := 30, color := "red",
               speed := s.model.droplet_speed * 2, points := -100 }] } := by
  simp [spawnDangerDrop, h, createDangerDroplet]

/-- Witness for the amended claim C7 at the fresh 800 x 600 game. -/
theorem claim_C7_witness :
    (initGameState 800 600).model.game_over = false ∧
    spawnDangerDrop upperRand (initGameState 800 600) =
      { initGameState 800 600 with danger_drops :=
          (initGameState 800 600).danger_drops ++
            [{ coords := ⟨upperRand (50, 750), 0⟩, size := 30, color := "red",
               speed := (initGameState 800 600).model.droplet_speed * 2,
               points := -100 }] } :=
  ⟨rfl, claim_C7_danger_spawn (initGameState 800 600) upperRand rfl⟩

/-! Helper lemmas: the danger-droplet phase never touches score, high score
or fall speed — end_game only flips game_over. -/

theorem dangerLoop_frame (l : List DropletSprite) :
    ∀ s : GameState,
      (dangerLoop s l).1.model.score = s.model.score ∧
      (dangerLoop s l).1.model.high_score = s.model.high_score ∧
      (dangerLoop s l).1.model.droplet_speed = s.model.droplet_speed ∧
      (dangerLoop s l).1.model.height = s.model.height ∧
      (dangerLoop s l).1.model.width = s.model.width ∧
      (dangerLoop s l).1.cup = s.cup ∧
      (dangerLoop s l).1.droplets = s.droplets := by
  induction l with
  | nil => intro s; exact ⟨rfl, rfl, rfl, rfl, rfl, rfl, rfl⟩
  | cons d rest ih =>
    intro s
    simp only [dangerLoop]
    split_ifs with h1 h2
    · exact ih s
    · simpa [endGame] using ih (endGame s)
    · simpa using ih s

theorem moveDroplets_empty_frame (rand : ℕ → ℚ × ℚ → ℚ) (s : GameState)
    (h : s.droplets = []) :
    (moveDroplets rand s).state.model.score = s.model.score ∧
    (moveDroplets rand s).state.model.high_score = s.model.high_score ∧
    (moveDroplets rand s).state.model.droplet_speed = s.model.droplet_speed := by
  cases hgo : s.model.game_over with
  | true => simp [moveDroplets_of_game_over rand s hgo]
  | false =>
    have hcl : collectLoop rand s 0 s.droplets = ⟨s, 0, [], []⟩ := by
      rw [h]
      simp [collectLoop]
    simp only [moveDroplets, hgo, Bool.false_eq_true, if_false, hcl]
    have hf :=
      dangerLoop_frame ({ s with droplets := ([] : List DropletSprite) }).danger_drops
        { s with droplets := ([] : List DropletSprite) }
    exact ⟨hf.1, hf.2.1, hf.2.2.1⟩

/-- Claim C10: end_game changes only the game_over flag — score, high score,
fall speed, the entity lists and the cup are untouched; the danger loop of a
move tick (where end_game is triggered by a danger droplet overlapping the
cup) never changes score, high score or fall speed, so the danger droplet's
points value -100, installed by create_danger_droplet purely as a
discriminator, is never added to the score. -/
theorem claim_C10_end_game_frame (s s2 : GameState) (l : List DropletSprite)
    (rand : ℕ → ℚ × ℚ → ℚ) (x y sz sp : ℚ) (col : String)
    (h : s.droplets = []) :
    (endGame s2).model.score = s2.model.score ∧
    (endGame s2).model.high_score = s2.model.high_score ∧
    (endGame s2).model.droplet_speed = s2.model.droplet_speed ∧
    (endGame s2).model.game_over = true ∧
    (endGame s2).droplets = s2.droplets ∧
    (endGame s2).danger_drops = s2.danger_drops ∧
    (endGame s2).cup = s2.cup ∧
    (createDangerDroplet x y sz col sp s2).danger_drops.map (fun d => d.points) =
      s2.danger_drops.map (fun d => d.points) ++ [-100] ∧
    (dangerLoop s2 l).1.model.score = s2.model.score ∧
    (dangerLoop s2 l).1.model.high_score = s2.model.high_score ∧
    (dangerLoop s2 l).1.model.droplet_speed = s2.model.droplet_speed ∧
    (moveDroplets rand s).state.model.score = s.model.score ∧
    (moveDroplets rand s).state.model.high_score = s.model.high_score ∧
    (moveDroplets rand s).state.model.droplet_speed = s.model.droplet_speed := by
  refine ⟨rfl, rfl, rfl, rfl, rfl, rfl, rfl, ?_, (dangerLoop_frame l s2).1,
    (dangerLoop_frame l s2).2.1, (dangerLoop_frame l s2).2.2.1,
    (moveDroplets_empty_frame rand s h).1,
    (moveDroplets_empty_frame rand s h).2.1,
    (moveDroplets_empty_frame rand s h).2.2⟩
  simp [createDangerDroplet]

/-- Witness for claim C10 at the fresh 800 x 600 game. -/
theorem claim_C10_witness :
    (initGameState 800 600).droplets = [] ∧
    ((endGame (initGameState 800 600)).model.score =
        (initGameState 800 600).model.score ∧
      (endGame (initGameState 800 600)).model.high_score =
        (initGameState 800 600).model.high_score ∧
      (endGame (initGameState 800 600)).model.droplet_speed =
        (initGameState 800 600).model.droplet_speed ∧
      (endGame (initGameState 800 600)).model.game_over = true ∧
      (endGame (initGameState 800 600)).droplets =
        (initGameState 800 600).droplets ∧
      (endGame (initGameState 800 600)).danger_drops =
        (initGameState 800 600).danger_drops ∧
      (endGame (initGameState 800 600)).cup = (initGameState 800 600).cup ∧
      (createDangerDroplet 0 0 30 "red" 10
            (initGameState 800 600)).danger_drops.map (fun d => d.points) =
        (initGameState 800 600).danger_drops.map (fun d => d.points) ++ [-100] ∧
      (dangerLoop (initGameState 800 600) []).1.model.score =
        (initGameState 800 600).model.score ∧
      (dangerLoop (initGameState 800 600) []).1.model.high_score =
        (initGameState 800 600).model.high_score ∧
      (dangerLoop (initGameState 800 600) []).1.model.droplet_speed =
        (initGameState 800 600).model.droplet_speed ∧
      (moveDroplets lowerRandSeq (initGameState 800 600)).state.model.score =
        (initGameState 800 600).model.score ∧
      (moveDroplets lowerRandSeq (initGameState 800 600)).state.model.high_score =
        (initGameState 800 600).model.high_score ∧
      (moveDroplets lowerRandSeq (initGameState 800 600)).state.model.droplet_speed =
        (initGameState 800 600).model.droplet_speed) :=
  ⟨rfl, claim_C10_end_game_frame (initGameState 800 600) (initGameState 800 600)
    [] lowerRandSeq 0 0 30 10 "red" rfl⟩

/-! Helper lemmas: frame conditions of the in-loop mutations of
move_droplets, and the characterisation of the collectible-droplet loop. -/

theorem updateScore_height (m : WaterDropGameModel) (points : ℤ) :
    (m.updateScore points).height = m.height := by
  simp only [WaterDropGameModel.updateScore]
  split_ifs <;> rfl

theorem updateScore_game_over (m : WaterDropGameModel) (points : ℤ) :
    (m.updateScore points).game_over = m.game_over := by
  simp only [WaterDropGameModel.updateScore]
  split_ifs <;> rfl

theorem spawnDangerDrop_model (f : ℚ × ℚ → ℚ) (s : GameState) :
    (spawnDangerDrop f s).model = s.model := by
  simp only [spawnDangerDrop]
  split_ifs <;> rfl

theorem spawnDangerDrop_cup (f : ℚ × ℚ → ℚ) (s : GameState) :
    (spawnDangerDrop f s).cup = s.cup := by
  simp only [spawnDangerDrop]
  split_ifs <;> rfl

theorem spawnDangerDrop_droplets (f : ℚ × ℚ → ℚ) (s : GameState) :
    (spawnDangerDrop f s).droplets = s.droplets := by
  simp only [spawnDangerDrop]
  split_ifs <;> rfl

theorem spawnDangerDrop_danger_length (f : ℚ × ℚ → ℚ) (s : GameState)
    (h : s.model.game_over = false) :
    (spawnDangerDrop f s).danger_drops.length = s.danger_drops.length + 1 := by
  simp [spawnDangerDrop, h, createDangerDroplet]

theorem spawnDroplet_danger_drops (rand : ℚ × ℚ → ℚ) (r : ℚ) (s : GameState) :
    (spawnDroplet rand r s).1.danger_drops = s.danger_drops := by
  simp only [spawnDroplet]
  split_ifs <;> simp [createDroplet]

theorem collectLoop_frame (rand : ℕ → ℚ × ℚ → ℚ) (l : List DropletSprite) :
    ∀ (s : GameState) (i : ℕ),
      (collectLoop rand s i l).state.model.height = s.model.height ∧
      (collectLoop rand s i l).state.model.game_over = s.model.game_over ∧
      (collectLoop rand s i l).state.cup = s.cup ∧
      (collectLoop rand s i l).state.droplets = s.droplets := by
  induction l with
  | nil => intro s i; exact ⟨rfl, rfl, rfl, rfl⟩
  | cons d rest ih =>
    intro s i
    simp only [collectLoop]
    split_ifs with h1 h2
    · obtain ⟨e1, e2, e3, e4⟩ := ih (spawnDangerDrop (rand i) s) (i + 1)
      exact ⟨by dsimp only; rw [e1, spawnDangerDrop_model],
        by dsimp only; rw [e2, spawnDangerDrop_model],
        by dsimp only; rw [e3, spawnDangerDrop_cup],
        by dsimp only; rw [e4, spawnDangerDrop_droplets]⟩
    · obtain ⟨e1, e2, e3, e4⟩ :=
        ih { s with model := s.model.updateScore d.step.points } i
      exact ⟨by dsimp only; rw [e1]; exact updateScore_height _ _,
        by dsimp only; rw [e2]; exact updateScore_game_over _ _,
        by dsimp only; rw [e3], by dsimp only; rw [e4]⟩
    · obtain ⟨e1, e2, e3, e4⟩ := ih s i
      exact ⟨e1, e2, e3, e4⟩

theorem collectLoop_lists (rand : ℕ → ℚ × ℚ → ℚ) (l : List DropletSprite) :
    ∀ (s : GameState) (i : ℕ),
      (collectLoop rand s i l).nextDroplets =
        (l.map DropletSprite.step).filter
          (fun d1 => !(decide (d1.coords.y ≥ s.model.height)) &&
            !(didDropletHitCup s.cup d1)) ∧
      (collectLoop rand s i l).pendingDeletes =
        (l.map DropletSprite.step).filter
          (fun d1 => decide (d1.coords.y ≥ s.model.height) ||
            didDropletHitCup s.cup d1) := by
  induction l with
  | nil => intro s i; exact ⟨rfl, rfl⟩
  | cons d rest ih =>
    intro s i
    by_cases hb : d.step.coords.y ≥ s.model.height
    · obtain ⟨e5, e6⟩ := ih (spawnDangerDrop (rand i) s) (i + 1)
      simp only [collectLoop, if_pos hb]
      constructor
      · rw [e5]
        simp only [spawnDangerDrop_model, spawnDangerDrop_cup]
        simp [hb]
      · rw [e6]
        simp only [spawnDangerDrop_model, spawnDangerDrop_cup]
        simp [hb]
    · by_cases hh : didDropletHitCup s.cup d.step = true
      · obtain ⟨e5, e6⟩ :=
          ih { s with model := s.model.updateScore d.step.points } i
        simp only [collectLoop, if_neg hb, hh, if_true]
        constructor
        · rw [e5]
          simp only [updateScore_height]
          simp [hb, hh]
        · rw [e6]
          simp only [updateScore_height]
          simp [hb, hh]
      · obtain ⟨e5, e6⟩ := ih s i
        simp only [collectLoop, if_neg hb, if_neg hh]
        constructor
        · rw [e5]
          simp [hb, hh]
        · rw [e6]
          simp [hb, hh]

theorem collectLoop_danger_count (rand : ℕ → ℚ × ℚ → ℚ)
    (l : List DropletSprite) :
    ∀ (s : GameState) (i : ℕ), s.model.game_over = false →
      (collectLoop rand s i l).state.danger_drops.length =
        s.danger_drops.length +
          ((l.map DropletSprite.step).filter
            (fun d1 => decide (d1.coords.y ≥ s.model.height))).length := by
  induction l with
  | nil => intro s i h; simp [collectLoop]
  | cons d rest ih =>
    intro s i h
    by_cases hb : d.step.coords.y ≥ s.model.height
    · have hgo1 : (spawnDangerDrop (rand i) s).model.game_over = false := by
        rw [spawnDangerDrop_model]; exact h
      have e7 := ih (spawnDangerDrop (rand i) s) (i + 1) hgo1
      simp only [collectLoop, if_pos hb]
      rw [e7]
      simp only [spawnDangerDrop_model, spawnDangerDrop_danger_length _ _ h]
      simp [hb]
      omega
    · by_cases hh : didDropletHitCup s.cup d.step = true
      · have hgo1 :
            ({ s with model := s.model.updateScore d.step.points } : GameState).model.game_over
              = false := by
          dsimp only
          rw [updateScore_game_over]
          exact h
        have e7 := ih { s with model := s.model.updateScore d.step.points } i hgo1
        simp only [collectLoop, if_neg hb, hh, if_true]
        rw [e7]
        simp only [updateScore_height]
        simp [hb]
      · have e7 := ih s i h
        simp only [collectLoop, if_neg hb, if_neg hh]
        rw [e7]
        simp [hb]

theorem moveDroplets_active_lists (rand : ℕ → ℚ × ℚ → ℚ) (s : GameState)
    (h : s.model.game_over = false) :
    (moveDroplets rand s).state.droplets =
      (collectLoop rand s 0 s.droplets).nextDroplets ∧
    (moveDroplets rand s).pendingDeletes =
      (collectLoop rand s 0 s.droplets).pendingDeletes := by
  simp only [moveDroplets, h, Bool.false_eq_true, if_false]
  constructor
  · exact (dangerLoop_frame _ _).2.2.2.2.2.2
  · trivial

/-- Counterexample for claim C2: after one move tick of stateC2, the single
droplet's bottom edge (coords.y + size = 595 + 10 = 605) lies at or below the
window height 600, yet the droplet is still alive — it is kept in the
droplets list, no deferred deletion is scheduled, and no danger droplet is
spawned — because the code compares the droplet's top edge coords.y (= 595)
with the window height, not its bottom edge. -/
theorem claim_C2_counterexample :
    (moveDroplets lowerRandSeq stateC2).state.droplets.map
        (fun d1 => d1.coords.y + d1.size) = [605] ∧
    (605 : ℚ) ≥ 600 ∧
    (moveDroplets lowerRandSeq stateC2).pendingDeletes = [] ∧
    (moveDroplets lowerRandSeq stateC2).state.danger_drops = [] := by
  refine ⟨?_, by norm_num, ?_, ?_⟩ <;>
    norm_num [moveDroplets, collectLoop, dangerLoop, stateC2, dropC2,
      initGameState, WaterDropGameModel.init, initCup, DropletSprite.step,
      didDropletHitCup, dropletBottom, dropletLeft, dropletRight, cupTop,
      cupLeft, cupRight]

/-- Claim C2 (amended): on a move tick of an active game, a droplet is
removed (with a one-tick deferred deletion scheduled) exactly when, after
stepping, its top edge coords.y is at or below the window height —
equivalently its bottom edge is at or below height + size — or it hit the
cup; the survivors are exactly the others; exactly one danger droplet is
spawned per collectible droplet that reached the bottom; and the spawn-timer
callback never adds danger droplets. -/
theorem claim_C2_bottom_removal (rand : ℕ → ℚ × ℚ → ℚ) (s : GameState)
    (rand2 : ℚ × ℚ → ℚ) (r2 : ℚ) (s2 : GameState)
    (h : s.model.game_over = false) :
    (moveDroplets rand s).state.droplets =
      (s.droplets.map DropletSprite.step).filter
        (fun d1 => !(decide (d1.coords.y ≥ s.model.height)) &&
          !(didDropletHitCup s.cup d1)) ∧
    (moveDroplets rand s).pendingDeletes =
      (s.droplets.map DropletSprite.step).filter
        (fun d1 => decide (d1.coords.y ≥ s.model.height) ||
          didDropletHitCup s.cup d1) ∧
    (collectLoop rand s 0 s.droplets).state.danger_drops.length =
      s.danger_drops.length +
        ((s.droplets.map DropletSprite.step).filter
          (fun d1 => decide (d1.coords.y ≥ s.model.height))).length ∧
    (spawnDroplet rand2 r2 s2).1.danger_drops = s2.danger_drops := by
  obtain ⟨ha, hb2⟩ := moveDroplets_active_lists rand s h
  obtain ⟨hl1, hl2⟩ := collectLoop_lists rand s.droplets s 0
  exact ⟨ha.trans hl1, hb2.trans hl2,
    collectLoop_danger_count rand s.droplets s 0 h,
    spawnDroplet_danger_drops rand2 r2 s2⟩

/-- Witness for the amended claim C2 at stateC2. -/
theorem claim_C2_witness :
    stateC2.model.game_over = false ∧
    ((moveDroplets lowerRandSeq stateC2).state.droplets =
      (stateC2.droplets.map DropletSprite.step).filter
        (fun d1 => !(decide (d1.coords.y ≥ stateC2.model.height)) &&
          !(didDropletHitCup stateC2.cup d1)) ∧
    (moveDroplets lowerRandSeq stateC2).pendingDeletes =
      (stateC2.droplets.map DropletSprite.step).filter
        (fun d1 => decide (d1.coords.y ≥ stateC2.model.height) ||
          didDropletHitCup stateC2.cup d1) ∧
    (collectLoop lowerRandSeq stateC2 0 stateC2.droplets).state.danger_drops.length =
      stateC2.danger_drops.length +
        ((stateC2.droplets.map DropletSprite.step).filter
          (fun d1 => decide (d1.coords.y ≥ stateC2.model.height))).length ∧
    (spawnDroplet lowerRand 0 (initGameState 800 600)).1.danger_drops =
      (initGameState 800 600).danger_drops) :=
  ⟨rfl, claim_C2_bottom_removal lowerRandSeq stateC2 lowerRand 0
    (initGameState 800 600) rfl⟩

/-! Helper lemmas: the cup invariant is preserved by every
handle_keyboard step. -/

theorem cupStep_inv (c : CupSprite) (d : MoveDirection) (h : CupInv c) :
    CupInv (cupStepWithDirection c d) := by
  obtain ⟨hw, hs, k, hx, hk0, hk1⟩ := h
  unfold cupStepWithDirection CupSprite.setMoveDirection CupSprite.doStep
  dsimp only
  split_ifs with h1 h2
  · obtain ⟨-, hpos⟩ := h1
    have hkpos : 0 < k := by
      have hq : (0 : ℚ) < 10 * (k : ℚ) := by rw [← hx]; exact hpos
      have : (0 : ℚ) < (k : ℚ) := by linarith
      exact_mod_cast this
    refine ⟨hw, hs, k - 1, ?_, by omega, by omega⟩
    show c.coords.x - c.speed = 10 * ((k - 1 : ℤ) : ℚ)
    rw [hx, hs]
    push_cast
    ring
  · obtain ⟨-, hlt⟩ := h2
    have hklt : k < 70 := by
      rw [hx, hw] at hlt
      have : (k : ℚ) < 70 := by linarith
      exact_mod_cast this
    refine ⟨hw, hs, k + 1, ?_, by omega, by omega⟩
    show c.coords.x + c.speed = 10 * ((k + 1 : ℤ) : ℚ)
    rw [hx, hs]
    push_cast
    ring
  · exact ⟨hw, hs, k, hx, hk0, hk1⟩

theorem cupFold_inv (ds : List MoveDirection) :
    ∀ c : CupSprite, CupInv c → CupInv (ds.foldl cupStepWithDirection c) := by
  induction ds with
  | nil => intro c h; exact h
  | cons d rest ih => intro c h; exact ih _ (cupStep_inv c d h)

theorem cupInv_init : CupInv (initCup (WaterDropGameModel.init 800 600)) := by
  refine ⟨rfl, rfl, 35, ?_, by omega, by omega⟩
  norm_num [initCup, WaterDropGameModel.init]


theorem cupStep_left_move (c : CupSprite) (hs : c.speed = 10)
    (hpos : c.coords.x > 0) :
    (cupStepWithDirection c MoveDirection.LEFT).coords.x = c.coords.x - 10 := by
  unfold cupStepWithDirection CupSprite.setMoveDirection CupSprite.doStep
  dsimp only
  rw [if_pos ⟨rfl, hpos⟩]
  show c.coords.x - c.speed = c.coords.x - 10
  rw [hs]

theorem cupStep_left_stay (c : CupSprite) (hnpos : ¬c.coords.x > 0) :
    (cupStepWithDirection c MoveDirection.LEFT).coords.x = c.coords.x := by
  unfold cupStepWithDirection CupSprite.setMoveDirection CupSprite.doStep
  dsimp only
  rw [if_neg (fun hc => hnpos hc.2), if_neg (fun hc => by simp at hc)]

theorem cupStep_cases (c : CupSprite) (d : MoveDirection) (h : CupInv c) :
    (cupStepWithDirection c d).coords.x = c.coords.x ∨
      ((cupStepWithDirection c d).coords.x = c.coords.x - 10 ∧
        0 ≤ c.coords.x - 10) ∨
      ((cupStepWithDirection c d).coords.x = c.coords.x + 10 ∧
        c.coords.x + 10 ≤ 800 - 100) := by
  obtain ⟨hw, hs, k, hx, hk0, hk1⟩ := h
  unfold cupStepWithDirection CupSprite.setMoveDirection CupSprite.doStep
  dsimp only
  split_ifs with h1 h2
  · obtain ⟨-, hpos⟩ := h1
    have hkpos : 0 < k := by
      have hq : (0 : ℚ) < 10 * (k : ℚ) := by rw [← hx]; exact hpos
      have : (0 : ℚ) < (k : ℚ) := by linarith
      exact_mod_cast this
    refine Or.inr (Or.inl ⟨?_, ?_⟩)
    · show c.coords.x - c.speed = c.coords.x - 10
      rw [hs]
    · rw [hx]
      have : (1 : ℚ) ≤ (k : ℚ) := by exact_mod_cast hkpos
      linarith
  · obtain ⟨-, hlt⟩ := h2
    have hklt : k < 70 := by
      rw [hx, hw] at hlt
      have : (k : ℚ) < 70 := by linarith
      exact_mod_cast this
    refine Or.inr (Or.inr ⟨?_, ?_⟩)
    · show c.coords.x + c.speed = c.coords.x + 10
      rw [hs]
    · rw [hx]
      have : (k : ℚ) ≤ 69 := by exact_mod_cast (by omega : k ≤ 69)
      linarith
  · exact Or.inl rfl

theorem cupXAfter_append_step (ds : List MoveDirection) (d : MoveDirection) :
    cupXAfter (ds ++ [d]) = cupXAfter ds ∨
      (cupXAfter (ds ++ [d]) = cupXAfter ds - 10 ∧ 0 ≤ cupXAfter ds - 10) ∨
      (cupXAfter (ds ++ [d]) = cupXAfter ds + 10 ∧
        cupXAfter ds + 10 ≤ 800 - 100) := by
  have he : cupXAfter (ds ++ [d]) =
      (cupStepWithDirection
        (ds.foldl cupStepWithDirection
          (initCup (WaterDropGameModel.init 800 600))) d).coords.x := by
    unfold cupXAfter
    rw [List.foldl_append, List.foldl_cons, List.foldl_nil]
  have hstep := cupStep_cases _ d (cupFold_inv ds _ cupInv_init)
  rw [he]
  exact hstep

theorem cupXAfter_replicate_left :
    ∀ n : ℕ, n ≤ 35 →
      cupXAfter (List.replicate n MoveDirection.LEFT) = 350 - 10 * (n : ℚ) := by
  intro n
  induction n with
  | zero =>
    intro _
    norm_num [cupXAfter, initCup, WaterDropGameModel.init]
  | succ m ih =>
    intro hm1
    have hxm : ((List.replicate m MoveDirection.LEFT).foldl cupStepWithDirection
        (initCup (WaterDropGameModel.init 800 600))).coords.x =
          350 - 10 * (m : ℚ) := ih (by omega)
    obtain ⟨hw, hs, k, hxk, hk0, hk1⟩ :=
      cupFold_inv (List.replicate m MoveDirection.LEFT) _ cupInv_init
    have he : cupXAfter (List.replicate (m + 1) MoveDirection.LEFT) =
        (cupStepWithDirection
          ((List.replicate m MoveDirection.LEFT).foldl cupStepWithDirection
            (initCup (WaterDropGameModel.init 800 600)))
          MoveDirection.LEFT).coords.x := by
      rw [List.replicate_succ']
      unfold cupXAfter
      rw [List.foldl_append, List.foldl_cons, List.foldl_nil]
    have hpos : ((List.replicate m MoveDirection.LEFT).foldl cupStepWithDirection
        (initCup (WaterDropGameModel.init 800 600))).coords.x > 0 := by
      rw [hxm]
      have : (m : ℚ) ≤ 34 := by exact_mod_cast (by omega : m ≤ 34)
      linarith
    rw [he, cupStep_left_move _ hs hpos, hxm]
    push_cast
    ring

theorem cupXAfter_36_left : cupXAfter (List.replicate 36 MoveDirection.LEFT) = 0 := by
  have h35 : ((List.replicate 35 MoveDirection.LEFT).foldl cupStepWithDirection
      (initCup (WaterDropGameModel.init 800 600))).coords.x =
        350 - 10 * ((35 : ℕ) : ℚ) :=
    cupXAfter_replicate_left 35 (le_refl 35)
  have he : cupXAfter (List.replicate 36 MoveDirection.LEFT) =
      (cupStepWithDirection
        ((List.replicate 35 MoveDirection.LEFT).foldl cupStepWithDirection
          (initCup (WaterDropGameModel.init 800 600)))
        MoveDirection.LEFT).coords.x := by
    rw [show (36 : ℕ) = 35 + 1 from rfl, List.replicate_succ']
    unfold cupXAfter
    rw [List.foldl_append, List.foldl_cons, List.foldl_nil]
  have hnpos : ¬((List.replicate 35 MoveDirection.LEFT).foldl cupStepWithDirection
      (initCup (WaterDropGameModel.init 800 600))).coords.x > 0 := by
    rw [h35]
    norm_num
  rw [he, cupStep_left_stay _ hnpos, h35]
  norm_num

/-- Claim C3: over every sequence of handle_keyboard cup steps of the
800-wide game, the cup's x stays within [0, windowWidth - cupWidth] =
[0, 700]; each further step either leaves x unchanged (the move is refused)
or moves it by exactly the 10-pixel cup speed while staying in bounds —
never a clamped partial move; and the cup can rest exactly at the boundary:
35 LEFT steps reach x = 0 and a 36th LEFT step leaves x = 0 untouched. -/
theorem claim_C3_cup_bounds (ds : List MoveDirection) (d : MoveDirection) :
    (0 ≤ cupXAfter ds ∧ cupXAfter ds ≤ 800 - 100) ∧
    (cupXAfter (ds ++ [d]) = cupXAfter ds ∨
      (cupXAfter (ds ++ [d]) = cupXAfter ds - 10 ∧ 0 ≤ cupXAfter ds - 10) ∨
      (cupXAfter (ds ++ [d]) = cupXAfter ds + 10 ∧
        cupXAfter ds + 10 ≤ 800 - 100)) ∧
    cupXAfter (List.replicate 35 MoveDirection.LEFT) = 0 ∧
    cupXAfter (List.replicate 36 MoveDirection.LEFT) = 0 := by
  refine ⟨?_, cupXAfter_append_step ds d, ?_, cupXAfter_36_left⟩
  · obtain ⟨hw, hs, k, hx, hk0, hk1⟩ := cupFold_inv ds _ cupInv_init
    have hx2 : cupXAfter ds = 10 * (k : ℚ) := hx
    rw [hx2]
    constructor
    · have : (0 : ℚ) ≤ (k : ℚ) := by exact_mod_cast hk0
      linarith
    · have : (k : ℚ) ≤ 70 := by exact_mod_cast hk1
      linarith
  · have h35 := cupXAfter_replicate_left 35 (le_refl 35)
    rw [h35]
    norm_num
